import Mathlib

set_option maxHeartbeats 1000000

/-!  Shallow embedding of the OrangeHRM UI-automation framework
     (Playwright + Cucumber + TypeScript).

     Embedded components:
     * `ConfigManager` (src/src/config/ConfigManager.ts): environment-variable
       driven configuration records.
     * `BrowserManager` (browser-lifecycle singleton): browser/context/page
       handle fields, lazy creation and guarded teardown.
     * `BasePage` (shared page abstraction): defensive queries and
       wait-then-act mutating actions.
     * `CustomWorld` (scenario context): screenshot capture helpers.
     * `hooks` (src/src/support/hooks.ts): tag-based environment skipping.

     Playwright primitives (element waits, clicks, screenshot capture) are
     modelled as given outcomes (`Except`-valued inputs): the claims under
     study are about how the wrapper code reacts to those outcomes, not about
     the browser itself.  JavaScript `x || d` defaulting (empty string and 0
     are falsy) and `parseInt` are embedded explicitly.  -/

/-- An assignment of process environment variables, i.e. `process.env`. -/
abbrev EnvMap := List (String × String)

/-- Look up `process.env[k]`; `none` models `undefined`. -/
def getEnv (env : EnvMap) (k : String) : Option String :=
  (env.find? (fun p => p.1 == k)).map (fun p => p.2)

/-- JavaScript string defaulting `x || d`: `undefined` and `""` are falsy. -/
def jsOrStr (v : Option String) (d : String) : String :=
  match v with
  | none => d
  | some s => if s = "" then d else s

/-- JavaScript numeric defaulting `x || d`: `undefined` and `0` are falsy. -/
def jsOrInt (v : Option Int) (d : Int) : Int :=
  match v with
  | none => d
  | some n => if n = 0 then d else n

/-- JavaScript `parseInt` on a decimal string; `none` models `NaN`. -/
def jsParseInt (s : String) : Option Int :=
  let core : List Char → Int → Option Int := fun cs sign =>
    let ds := cs.takeWhile Char.isDigit
    if ds.isEmpty then none
    else some (sign * ((ds.foldl (fun a c => a * 10 + (c.toNat - 48)) 0 : Nat) : Int))
  match s.trim.toList with
  | '-' :: rest => core rest (-1)
  | '+' :: rest => core rest 1
  | cs => core cs 1

namespace ConfigManager

/-- `EnvironmentConfig` record from src/src/config/ConfigManager.ts. -/
structure EnvironmentConfig where
  baseUrl : String
  username : String
  password : String
  apiBaseUrl : Option String
  deriving Repr, DecidableEq

/-- The documented default demo base URL used when `{ENV}_BASE_URL` is unset. -/
def defaultBaseUrl : String :=
  "https://opensource-demo.orangehrmlive.com/web/index.php/auth/login"

/-- `ConfigManager.getEnvironmentConfig`, as a function of `process.env` and
the manager's `currentEnv` field.  The variable-name stem is the upper-cased
environment name; `||` defaulting supplies the demo URL and credentials. -/
def getEnvironmentConfig (env : EnvMap) (currentEnv : String) : EnvironmentConfig :=
  let pfx := currentEnv.toUpper
  { baseUrl := jsOrStr (getEnv env (pfx ++ "_BASE_URL")) defaultBaseUrl
    username := jsOrStr (getEnv env (pfx ++ "_USERNAME")) "Admin"
    password := jsOrStr (getEnv env (pfx ++ "_PASSWORD")) "admin123"
    apiBaseUrl := getEnv env "API_BASE_URL" }

/-- `BrowserConfig` record; `Option Int` fields model `parseInt` results
(`none` = `NaN`). -/
structure BrowserConfig where
  browser : String
  headless : Bool
  slowMo : Option Int
  timeout : Option Int
  navigationTimeout : Option Int
  actionTimeout : Option Int
  video : String
  screenshot : String
  trace : String
  deriving Repr, DecidableEq

/-- `ConfigManager.getBrowserConfig`: note `headless` is the strict
inequality test `process.env.HEADLESS !== 'false'`. -/
def getBrowserConfig (env : EnvMap) : BrowserConfig :=
  { browser := jsOrStr (getEnv env "BROWSER") "chromium"
    headless := decide (getEnv env "HEADLESS" ≠ some "false")
    slowMo := jsParseInt (jsOrStr (getEnv env "SLOW_MO") "0")
    timeout := jsParseInt (jsOrStr (getEnv env "TIMEOUT") "30000")
    navigationTimeout := jsParseInt (jsOrStr (getEnv env "NAVIGATION_TIMEOUT") "30000")
    actionTimeout := jsParseInt (jsOrStr (getEnv env "ACTION_TIMEOUT") "10000")
    video := jsOrStr (getEnv env "VIDEO") "off"
    screenshot := jsOrStr (getEnv env "SCREENSHOT") "only-on-failure"
    trace := jsOrStr (getEnv env "TRACE") "retain-on-failure" }

/-- `TestConfig` record. -/
structure TestConfig where
  environment : String
  workers : Option Int
  retryCount : Option Int
  retryFlakyTests : Bool
  reportPath : String
  screenshotPath : String
  videoPath : String
  logLevel : String
  logToFile : Bool
  deriving Repr, DecidableEq

/-- `ConfigManager.getTestConfig`. -/
def getTestConfig (env : EnvMap) (currentEnv : String) : TestConfig :=
  { environment := currentEnv
    workers := jsParseInt (jsOrStr (getEnv env "WORKERS") "2")
    retryCount := jsParseInt (jsOrStr (getEnv env "RETRY_COUNT") "0")
    retryFlakyTests := decide (getEnv env "RETRY_FLAKY_TESTS" ≠ some "false")
    reportPath := jsOrStr (getEnv env "REPORT_PATH") "./reports"
    screenshotPath := jsOrStr (getEnv env "SCREENSHOT_PATH") "./screenshots"
    videoPath := jsOrStr (getEnv env "VIDEO_PATH") "./videos"
    logLevel := jsOrStr (getEnv env "LOG_LEVEL") "info"
    logToFile := decide (getEnv env "LOG_TO_FILE" ≠ some "false") }

/-- The manager's only mutable state: the `currentEnv` field. -/
structure CMState where
  currentEnv : String
  deriving Repr, DecidableEq

/-- Method `getEnvironmentConfig` with explicit state passing: it reads
`this.currentEnv` and assigns nothing. -/
def getEnvironmentConfigM (env : EnvMap) (st : CMState) : EnvironmentConfig × CMState :=
  (getEnvironmentConfig env st.currentEnv, st)

/-- Method `getBrowserConfig` with explicit state passing. -/
def getBrowserConfigM (env : EnvMap) (st : CMState) : BrowserConfig × CMState :=
  (getBrowserConfig env, st)

/-- Method `getTestConfig` with explicit state passing. -/
def getTestConfigM (env : EnvMap) (st : CMState) : TestConfig × CMState :=
  (getTestConfig env st.currentEnv, st)

end ConfigManager

namespace BrowserManager

/-- Observable lifecycle events emitted by the manager's calls into
Playwright; handles are numbered by creation order. -/
inductive Ev where
  | launched (h : Nat)
  | contextCreated (h : Nat)
  | pageCreated (h : Nat)
  | pageClosed (h : Nat)
  | contextClosed (h : Nat)
  | browserClosed (h : Nat)
  deriving Repr, DecidableEq

/-- The `BrowserManager` singleton's fields: `browser`, `context`, `page`
handles (null = `none`), plus a fresh-handle counter for the embedding. -/
structure BMState where
  browser : Option Nat
  context : Option Nat
  page : Option Nat
  nextId : Nat
  deriving Repr, DecidableEq

/-- The freshly constructed manager: all handles null. -/
def bmInit : BMState := ⟨none, none, none, 0⟩

/-- `initBrowser`: launches the configured engine and stores the handle.
The source has no already-started guard: it launches unconditionally. -/
def initBrowser (s : BMState) : Nat × BMState × List Ev :=
  (s.nextId,
   { s with browser := some s.nextId, nextId := s.nextId + 1 },
   [Ev.launched s.nextId])

/-- `createContext`: launches the browser first when `this.browser` is null,
then creates a context and stores the handle. -/
def createContext (s : BMState) : Nat × BMState × List Ev :=
  let st := if s.browser = none then (initBrowser s).2 else (s, [])
  (st.1.nextId,
   { st.1 with context := some st.1.nextId, nextId := st.1.nextId + 1 },
   st.2 ++ [Ev.contextCreated st.1.nextId])

/-- `createPage`: creates a context first when `this.context` is null, then
opens a page and stores the handle. -/
def createPage (s : BMState) : Nat × BMState × List Ev :=
  let st := if s.context = none then (createContext s).2 else (s, [])
  (st.1.nextId,
   { st.1 with page := some st.1.nextId, nextId := st.1.nextId + 1 },
   st.2 ++ [Ev.pageCreated st.1.nextId])

/-- Closing a raw handle: calling `.close()` through a null reference would
be a JavaScript `TypeError`; the manager's null guards must prevent this. -/
def jsClose (h : Option Nat) : Except String Nat :=
  match h with
  | none => Except.error "TypeError"
  | some x => Except.ok x

/-- `closePage`: guarded by `if (this.page)`; nulls the field after closing. -/
def closePage (s : BMState) : Except String (BMState × List Ev) :=
  if s.page = none then Except.ok (s, [])
  else (jsClose s.page).map (fun p => ({ s with page := none }, [Ev.pageClosed p]))

/-- `closeContext`: guarded by `if (this.context)`; nulls the field after
closing.  Note it does not touch `this.page`. -/
def closeContext (s : BMState) : Except String (BMState × List Ev) :=
  if s.context = none then Except.ok (s, [])
  else (jsClose s.context).map (fun c => ({ s with context := none }, [Ev.contextClosed c]))

/-- `closeBrowser`: closes the page, then the context, then the browser
process, each through its own guard. -/
def closeBrowser (s : BMState) : Except String (BMState × List Ev) := do
  let (s1, e1) ← closePage s
  let (s2, e2) ← closeContext s1
  if s2.browser = none then return (s2, e1 ++ e2)
  else
    let b ← jsClose s2.browser
    return ({ s2 with browser := none }, e1 ++ e2 ++ [Ev.browserClosed b])

/-- The manager's public operations, for reachability reasoning. -/
inductive Op where
  | initB
  | newCtx
  | newPage
  | closeP
  | closeC
  | closeB
  deriving Repr, DecidableEq

/-- State transition of one operation (close operations never error, so the
error fallback branch is inert). -/
def step (s : BMState) : Op → BMState
  | Op.initB => (initBrowser s).2.1
  | Op.newCtx => (createContext s).2.1
  | Op.newPage => (createPage s).2.1
  | Op.closeP => match closePage s with | Except.ok r => r.1 | Except.error _ => s
  | Op.closeC => match closeContext s with | Except.ok r => r.1 | Except.error _ => s
  | Op.closeB => match closeBrowser s with | Except.ok r => r.1 | Except.error _ => s

/-- Run a sequence of operations from the freshly constructed manager. -/
def run (ops : List Op) : BMState := ops.foldl step bmInit

/-- A trace discipline: `closeContext` is only invoked while no page handle
is live. -/
def okTrace : BMState → List Op → Bool
  | _, [] => true
  | s, o :: rest => (decide (o = Op.closeC → s.page = none)) && okTrace (step s o) rest

/-- The null/non-null shape of the three handle fields. -/
def shape (s : BMState) : Bool × Bool × Bool :=
  (s.browser.isSome, s.context.isSome, s.page.isSome)

/-- The effect of each operation on the handle shape. -/
def stepShape : Bool × Bool × Bool → Op → Bool × Bool × Bool
  | (_, c, p), Op.initB => (true, c, p)
  | (_, _, p), Op.newCtx => (true, true, p)
  | (b, c, _), Op.newPage => (if c then b else true, true, true)
  | (b, c, _), Op.closeP => (b, c, false)
  | (b, _, p), Op.closeC => (b, false, p)
  | (_, _, _), Op.closeB => (false, false, false)

/-- Shape-level trace discipline matching `okTrace`. -/
def okTraceS : Bool × Bool × Bool → List Op → Bool
  | _, [] => true
  | t, o :: rest => (decide (o = Op.closeC → t.2.2 = false)) && okTraceS (stepShape t o) rest

/-- Shape-level half invariant: a context needs a browser. -/
def inv1S (t : Bool × Bool × Bool) : Bool := !t.2.1 || t.1

/-- Shape-level full dependency invariant. -/
def invS (t : Bool × Bool × Bool) : Bool := (!t.2.1 || t.1) && (!t.2.2 || t.2.1)

/-- Page-close events of a state, as produced by `closePage`. -/
def pageEvs (s : BMState) : List Ev :=
  match s.page with
  | none => []
  | some p => [Ev.pageClosed p]

/-- Context-close events of a state, as produced by `closeContext`. -/
def ctxEvs (s : BMState) : List Ev :=
  match s.context with
  | none => []
  | some c => [Ev.contextClosed c]

/-- Browser-close events of a state, as produced by `closeBrowser`'s final
stage. -/
def brEvs (s : BMState) : List Ev :=
  match s.browser with
  | none => []
  | some b => [Ev.browserClosed b]

end BrowserManager

namespace BasePage

/-- Failures surfaced by the Playwright layer. -/
inductive PWError where
  | timeout
  | crashed
  deriving Repr, DecidableEq

/-- Log levels emitted by the wrapper methods. -/
inductive LogLevel where
  | info
  | warn
  | err
  deriving Repr, DecidableEq

/-- A locator together with the outcomes the live page gives its
primitives.  `waitVisible` depends on the granted timeout. -/
structure Locator where
  waitVisible : Int → Except PWError Unit
  clickAct : Except PWError Unit
  clearAct : Except PWError Unit
  fillAct : String → Except PWError Unit
  selectAct : String → Except PWError Unit
  isVisibleQ : Except PWError Bool
  isEnabledQ : Except PWError Bool
  textContentQ : Except PWError (Option String)
  countQ : Except PWError Nat

/-- `BasePage.waitForElement`: waits for the visible state within
`timeout || this.browserConfig.actionTimeout`. -/
def waitForElement (actionTimeout : Int) (loc : Locator) (t : Option Int) :
    Except PWError Unit :=
  loc.waitVisible (jsOrInt t actionTimeout)

/-- `BasePage.click`: wait for visibility, click, log; on any failure log an
error and re-throw the same exception. -/
def click (actionTimeout : Int) (loc : Locator) (t : Option Int) :
    Except PWError Unit × List LogLevel :=
  match waitForElement actionTimeout loc t with
  | Except.error e => (Except.error e, [LogLevel.err])
  | Except.ok _ =>
    match loc.clickAct with
    | Except.error e => (Except.error e, [LogLevel.err])
    | Except.ok _ => (Except.ok (), [LogLevel.info])

/-- `BasePage.fill`: wait for visibility, optionally clear, fill, log; on any
failure log an error and re-throw the same exception. -/
def fill (actionTimeout : Int) (loc : Locator) (text : String)
    (clear : Option Bool) (t : Option Int) : Except PWError Unit × List LogLevel :=
  match waitForElement actionTimeout loc t with
  | Except.error e => (Except.error e, [LogLevel.err])
  | Except.ok _ =>
    match (if clear = some true then loc.clearAct else Except.ok ()) with
    | Except.error e => (Except.error e, [LogLevel.err])
    | Except.ok _ =>
      match loc.fillAct text with
      | Except.error e => (Except.error e, [LogLevel.err])
      | Except.ok _ => (Except.ok (), [LogLevel.info])

/-- `BasePage.selectOption`: wait for visibility (default timeout), select,
log; on any failure log an error and re-throw the same exception. -/
def selectOption (actionTimeout : Int) (loc : Locator) (v : String) :
    Except PWError Unit × List LogLevel :=
  match waitForElement actionTimeout loc none with
  | Except.error e => (Except.error e, [LogLevel.err])
  | Except.ok _ =>
    match loc.selectAct v with
    | Except.error e => (Except.error e, [LogLevel.err])
    | Except.ok _ => (Except.ok (), [LogLevel.info])

/-- `BasePage.getText`: waits for the element, reads `textContent() || ''`
and trims it; the catch block logs and RE-THROWS the error. -/
def getText (actionTimeout : Int) (loc : Locator) :
    Except PWError String × List LogLevel :=
  match waitForElement actionTimeout loc none with
  | Except.error e => (Except.error e, [LogLevel.err])
  | Except.ok _ =>
    match loc.textContentQ with
    | Except.error e => (Except.error e, [LogLevel.err])
    | Except.ok txt => (Except.ok ((jsOrStr txt "").trim), [LogLevel.info])

/-- `BasePage.isVisible`: the catch block swallows the error and returns
`false`. -/
def isVisible (loc : Locator) : Except PWError Bool :=
  match loc.isVisibleQ with
  | Except.ok b => Except.ok b
  | Except.error _ => Except.ok false

/-- `BasePage.isEnabled`: the catch block swallows the error and returns
`false`. -/
def isEnabled (loc : Locator) : Except PWError Bool :=
  match loc.isEnabledQ with
  | Except.ok b => Except.ok b
  | Except.error _ => Except.ok false

/-- `UserManagementPage.getResultsCount`: counts the result rows; the catch
block logs a warning and returns `0`. -/
def getResultsCount (rows : Locator) : Except PWError Nat × List LogLevel :=
  match rows.countQ with
  | Except.ok n => (Except.ok n, [LogLevel.info])
  | Except.error _ => (Except.ok 0, [LogLevel.warn])

/-- A locator whose every primitive times out (e.g. the element never
appears). -/
def failingLoc : Locator :=
  { waitVisible := fun _ => Except.error PWError.timeout
    clickAct := Except.error PWError.timeout
    clearAct := Except.error PWError.timeout
    fillAct := fun _ => Except.error PWError.timeout
    selectAct := fun _ => Except.error PWError.timeout
    isVisibleQ := Except.error PWError.timeout
    isEnabledQ := Except.error PWError.timeout
    textContentQ := Except.error PWError.timeout
    countQ := Except.error PWError.timeout }

/-- A locator whose every primitive succeeds. -/
def okLoc : Locator :=
  { waitVisible := fun _ => Except.ok ()
    clickAct := Except.ok ()
    clearAct := Except.ok ()
    fillAct := fun _ => Except.ok ()
    selectAct := fun _ => Except.ok ()
    isVisibleQ := Except.ok true
    isEnabledQ := Except.ok true
    textContentQ := Except.ok (some "  Dashboard  ")
    countQ := Except.ok 3 }

end BasePage

namespace CustomWorld

/-- Screenshot bytes. -/
abbrev Bytes := List Nat

/-- Outcome of `CustomWorld.takeScreenshot`: the returned bytes (if any),
the file path written (if any), and the log entries emitted. -/
structure ScreenshotResult where
  bytes : Option Bytes
  file : Option String
  logs : List BasePage.LogLevel
  deriving Repr, DecidableEq

/-- Timestamp sanitisation `toISOString().replace(/[:.]/g, '-')`. -/
def sanitizeTs (s : String) : String :=
  String.mk (s.data.map (fun c => if c = ':' ∨ c = '.' then '-' else c))

/-- `CustomWorld.takeScreenshot`: warns and returns `undefined` when the page
is null; otherwise writes `{path}/{name}-{sanitised ISO}.png` and returns the
bytes, or logs the failure and returns `undefined` — it never throws. -/
def takeScreenshot (page : Option Nat) (screenshotPath : String) (iso : String)
    (name : String) (shot : Except BasePage.PWError Bytes) : ScreenshotResult :=
  match page with
  | none => ⟨none, none, [BasePage.LogLevel.warn]⟩
  | some _ =>
    let fileName := screenshotPath ++ "/" ++ name ++ "-" ++ sanitizeTs iso ++ ".png"
    match shot with
    | Except.ok b => ⟨some b, some fileName, [BasePage.LogLevel.info]⟩
    | Except.error _ => ⟨none, none, [BasePage.LogLevel.err]⟩

/-- `CustomWorld.attachScreenshot`: captures and attaches only when bytes
came back; first component is the attachment made (if any). -/
def attachScreenshot (page : Option Nat) (screenshotPath : String) (iso : String)
    (name : String) (shot : Except BasePage.PWError Bytes) :
    Option Bytes × List BasePage.LogLevel :=
  let r := takeScreenshot page screenshotPath iso name shot
  (r.bytes, r.logs)

end CustomWorld

namespace Hooks

/-- The `@dev-only` Before hook body: signals `'skipped'` unless the active
environment is exactly `dev`. -/
def devOnlyHook (env : String) : Option String :=
  if env ≠ "dev" then some "skipped" else none

/-- The `@prod-only` Before hook body: signals `'skipped'` unless the active
environment is exactly `prod`. -/
def prodOnlyHook (env : String) : Option String :=
  if env ≠ "prod" then some "skipped" else none

/-- Skip signals produced by the tag-matching environment-restriction hooks
for a scenario's tag list. -/
def beforeSignals (tags : List String) (env : String) : List String :=
  (if "@dev-only" ∈ tags then (devOnlyHook env).toList else []) ++
  (if "@prod-only" ∈ tags then (prodOnlyHook env).toList else [])

/-- Modelled from the spec: the Cucumber runner (third-party, not part of
this repository) evaluates tag-matching Before hooks before any step
executes; when a hook returns `'skipped'` the scenario is skipped
cooperatively and no steps run.  Result: (number of steps executed,
was-skipped). -/
def runScenario (tags : List String) (env : String) (numSteps : Nat) : Nat × Bool :=
  match beforeSignals tags env with
  | [] => (numSteps, false)
  | _ :: _ => (0, true)

end Hooks

/-! Helper lemmas. -/

/-- JavaScript `||` defaulting with a non-empty default never yields the
empty string. -/
theorem jsOrStr_ne_empty (v : Option String) (d : String) (hd : d ≠ "") :
    jsOrStr v d ≠ "" := by
  cases v with
  | none => simpa [jsOrStr] using hd
  | some s =>
    by_cases hs : s = "" <;> simp [jsOrStr, hs, hd]

/-! Claim theorems. -/

/-- C5: for every environment name `E` and every environment-variable
assignment, `getEnvironmentConfig` upper-cases `E` into the variable-name
stem, substitutes the documented defaults (demo URL, `Admin`, `admin123`)
for each absent variable, and the returned `baseUrl` is always non-empty;
the operation is a total function, so it never fails. -/
theorem c5_environment_defaults (env : EnvMap) (e : String) :
    (ConfigManager.getEnvironmentConfig env e).baseUrl ≠ ""
    ∧ (getEnv env (e.toUpper ++ "_BASE_URL") = none →
        (ConfigManager.getEnvironmentConfig env e).baseUrl = ConfigManager.defaultBaseUrl)
    ∧ (getEnv env (e.toUpper ++ "_USERNAME") = none →
        (ConfigManager.getEnvironmentConfig env e).username = "Admin")
    ∧ (getEnv env (e.toUpper ++ "_PASSWORD") = none →
        (ConfigManager.getEnvironmentConfig env e).password = "admin123") := by
  refine ⟨?_, ?_, ?_, ?_⟩
  · exact jsOrStr_ne_empty _ _ (by decide)
  · intro h
    simp [ConfigManager.getEnvironmentConfig, h, jsOrStr]
  · intro h
    simp [ConfigManager.getEnvironmentConfig, h, jsOrStr]
  · intro h
    simp [ConfigManager.getEnvironmentConfig, h, jsOrStr]

/-- C5 witness: with no variables set, environment `qa` resolves to the
documented defaults and a non-empty base URL. -/
theorem c5_environment_defaults_witness :
    (ConfigManager.getEnvironmentConfig [] "qa").baseUrl = ConfigManager.defaultBaseUrl
    ∧ (ConfigManager.getEnvironmentConfig [] "qa").username = "Admin"
    ∧ (ConfigManager.getEnvironmentConfig [] "qa").password = "admin123"
    ∧ (ConfigManager.getEnvironmentConfig [] "qa").baseUrl ≠ "" :=
  ⟨(c5_environment_defaults [] "qa").2.1 rfl,
   (c5_environment_defaults [] "qa").2.2.1 rfl,
   (c5_environment_defaults [] "qa").2.2.2 rfl,
   (c5_environment_defaults [] "qa").1⟩

/-- C9: the Configuration Provider is deterministic and side-effect free:
each getter leaves the manager state (the current environment name)
unchanged, and a second call under the same environment-variable assignment
returns the same record. -/
theorem c9_config_provider_pure (env : EnvMap) (st : ConfigManager.CMState) :
    (ConfigManager.getEnvironmentConfigM env st).2 = st
    ∧ (ConfigManager.getEnvironmentConfigM env
        (ConfigManager.getEnvironmentConfigM env st).2).1
      = (ConfigManager.getEnvironmentConfigM env st).1
    ∧ (ConfigManager.getBrowserConfigM env st).2 = st
    ∧ (ConfigManager.getBrowserConfigM env
        (ConfigManager.getBrowserConfigM env st).2).1
      = (ConfigManager.getBrowserConfigM env st).1
    ∧ (ConfigManager.getTestConfigM env st).2 = st
    ∧ (ConfigManager.getTestConfigM env
        (ConfigManager.getTestConfigM env st).2).1
      = (ConfigManager.getTestConfigM env st).1 :=
  ⟨rfl, rfl, rfl, rfl, rfl, rfl⟩

/-- C10: `headless` is `false` exactly when the `HEADLESS` variable is the
exact string `false`; for every other value (including unset) it is
`true`. -/
theorem c10_headless_default (env : EnvMap) :
    ((ConfigManager.getBrowserConfig env).headless = false ↔
      getEnv env "HEADLESS" = some "false")
    ∧ (getEnv env "HEADLESS" ≠ some "false" →
        (ConfigManager.getBrowserConfig env).headless = true) := by
  constructor
  · simp [ConfigManager.getBrowserConfig]
  · intro h
    simp [ConfigManager.getBrowserConfig, h]

/-- C10 witness: `headless` at the concrete values named by the claim. -/
theorem c10_headless_default_witness :
    (ConfigManager.getBrowserConfig [("HEADLESS", "false")]).headless = false
    ∧ (ConfigManager.getBrowserConfig []).headless = true
    ∧ (ConfigManager.getBrowserConfig [("HEADLESS", "0")]).headless = true
    ∧ (ConfigManager.getBrowserConfig [("HEADLESS", "no")]).headless = true
    ∧ (ConfigManager.getBrowserConfig [("HEADLESS", "False")]).headless = true
    ∧ (ConfigManager.getBrowserConfig [("HEADLESS", "FALSE")]).headless = true :=
  ⟨(c10_headless_default [("HEADLESS", "false")]).1.mpr rfl,
   (c10_headless_default []).2 (by decide),
   (c10_headless_default [("HEADLESS", "0")]).2 (by decide),
   (c10_headless_default [("HEADLESS", "no")]).2 (by decide),
   (c10_headless_default [("HEADLESS", "False")]).2 (by decide),
   (c10_headless_default [("HEADLESS", "FALSE")]).2 (by decide)⟩

/-- Closed form of `closePage`: always succeeds, nulls the page field, emits
the page-close event when a page was live. -/
theorem closePage_eq (b c p : Option Nat) (n : Nat) :
    BrowserManager.closePage ⟨b, c, p, n⟩ =
      Except.ok (⟨b, c, none, n⟩, BrowserManager.pageEvs ⟨b, c, p, n⟩) := by
  cases p <;> rfl

/-- Closed form of `closeContext`: always succeeds, nulls the context field
only. -/
theorem closeContext_eq (b c p : Option Nat) (n : Nat) :
    BrowserManager.closeContext ⟨b, c, p, n⟩ =
      Except.ok (⟨b, none, p, n⟩, BrowserManager.ctxEvs ⟨b, c, p, n⟩) := by
  cases c <;> rfl

/-- Closed form of `closeBrowser`: always succeeds, nulls all three fields,
and emits page-close, then context-close, then browser-close events. -/
theorem closeBrowser_eq (b c p : Option Nat) (n : Nat) :
    BrowserManager.closeBrowser ⟨b, c, p, n⟩ =
      Except.ok (⟨none, none, none, n⟩,
        BrowserManager.pageEvs ⟨b, c, p, n⟩ ++ BrowserManager.ctxEvs ⟨b, c, p, n⟩
          ++ BrowserManager.brEvs ⟨b, c, p, n⟩) := by
  cases b <;> cases c <;> cases p <;> rfl

/-- One operation acts on the null/non-null shape of the handle fields
exactly as `stepShape` describes. -/
theorem shape_step (s : BrowserManager.BMState) (o : BrowserManager.Op) :
    BrowserManager.shape (BrowserManager.step s o) =
      BrowserManager.stepShape (BrowserManager.shape s) o := by
  obtain ⟨b, c, p, n⟩ := s
  cases o <;> cases b <;> cases c <;> cases p <;> rfl

/-- `stepShape` preserves the context-needs-browser half invariant. -/
theorem inv1S_step (t : Bool × Bool × Bool) (o : BrowserManager.Op) :
    BrowserManager.inv1S t = true → BrowserManager.inv1S (BrowserManager.stepShape t o) = true := by
  obtain ⟨b, c, p⟩ := t
  cases o <;> cases b <;> cases c <;> cases p <;> decide

/-- `stepShape` preserves the full dependency invariant when `closeContext`
is only applied while no page is live. -/
theorem invS_step (t : Bool × Bool × Bool) (o : BrowserManager.Op) :
    BrowserManager.invS t = true →
    decide (o = BrowserManager.Op.closeC → t.2.2 = false) = true →
    BrowserManager.invS (BrowserManager.stepShape t o) = true := by
  obtain ⟨b, c, p⟩ := t
  cases o <;> cases b <;> cases c <;> cases p <;> decide

/-- Folding `stepShape` preserves the half invariant over any operation
list. -/
theorem inv1S_fold (ops : List BrowserManager.Op) :
    ∀ t, BrowserManager.inv1S t = true →
      BrowserManager.inv1S (List.foldl BrowserManager.stepShape t ops) = true := by
  induction ops with
  | nil => intro t h; simpa using h
  | cons o rest ih =>
    intro t h
    simp only [List.foldl]
    exact ih _ (inv1S_step t o h)

/-- Folding `stepShape` preserves the full invariant along disciplined
traces. -/
theorem invS_fold (ops : List BrowserManager.Op) :
    ∀ t, BrowserManager.invS t = true →
      BrowserManager.okTraceS t ops = true →
      BrowserManager.invS (List.foldl BrowserManager.stepShape t ops) = true := by
  induction ops with
  | nil => intro t h _; simpa using h
  | cons o rest ih =>
    intro t h hok
    simp only [List.foldl]
    rw [BrowserManager.okTraceS, Bool.and_eq_true] at hok
    exact ih _ (invS_step t o h hok.1) hok.2

/-- The shape of a folded run is the shape-level fold. -/
theorem shape_fold (ops : List BrowserManager.Op) :
    ∀ s, BrowserManager.shape (List.foldl BrowserManager.step s ops) =
      List.foldl BrowserManager.stepShape (BrowserManager.shape s) ops := by
  induction ops with
  | nil => intro s; rfl
  | cons o rest ih =>
    intro s
    simp only [List.foldl]
    rw [ih (BrowserManager.step s o), shape_step s o]

/-- The trace discipline only depends on the handle shapes. -/
theorem okTrace_eq (ops : List BrowserManager.Op) :
    ∀ s, BrowserManager.okTrace s ops = BrowserManager.okTraceS (BrowserManager.shape s) ops := by
  induction ops with
  | nil => intro s; rfl
  | cons o rest ih =>
    intro s
    have hiff : (s.page = none) ↔ ((BrowserManager.shape s).2.2 = false) := by
      obtain ⟨b, c, p, n⟩ := s
      cases p <;> simp [BrowserManager.shape]
    rw [BrowserManager.okTrace, BrowserManager.okTraceS, ih (BrowserManager.step s o),
      shape_step s o]
    congr 1
    exact decide_eq_decide.mpr (imp_congr Iff.rfl hiff)

/-- C2 counterexample: with a browser already started (handle 0), a second
`initBrowser` call performs a new launch, returns the new handle 1 instead
of the existing one, and overwrites the manager's browser field. -/
theorem c2_initBrowser_relaunch_counterexample :
    (BrowserManager.initBrowser BrowserManager.bmInit).2.1.browser = some 0
    ∧ (BrowserManager.initBrowser
        (BrowserManager.initBrowser BrowserManager.bmInit).2.1).1 = 1
    ∧ (BrowserManager.initBrowser
        (BrowserManager.initBrowser BrowserManager.bmInit).2.1).2.1.browser = some 1
    ∧ (BrowserManager.initBrowser
        (BrowserManager.initBrowser BrowserManager.bmInit).2.1).2.2
      = [BrowserManager.Ev.launched 1] := by decide

/-- C2 amended: `initBrowser` is not idempotent — even when a browser is
already started it performs a fresh launch, returns the new handle and
overwrites the browser field; reuse of an existing browser happens only in
`createContext` (and transitively `createPage`), which launch only when the
handle is null. -/
theorem c2_initBrowser_always_launches (s : BrowserManager.BMState) (b : Nat)
    (hb : s.browser = some b) :
    (BrowserManager.initBrowser s).1 = s.nextId
    ∧ (BrowserManager.initBrowser s).2.1.browser = some s.nextId
    ∧ (BrowserManager.initBrowser s).2.2 = [BrowserManager.Ev.launched s.nextId]
    ∧ (BrowserManager.createContext s).2.1.browser = some b
    ∧ ∀ h, BrowserManager.Ev.launched h ∉ (BrowserManager.createContext s).2.2 := by
  refine ⟨rfl, rfl, rfl, ?_, ?_⟩
  · simp [BrowserManager.createContext, hb]
  · intro h
    simp [BrowserManager.createContext, hb]

/-- C2 amended witness: with browser handle 5 live, `initBrowser` installs a
fresh handle while `createContext` keeps the existing one. -/
theorem c2_initBrowser_always_launches_witness :
    (BrowserManager.initBrowser ⟨some 5, none, none, 6⟩).2.1.browser = some 6
    ∧ (BrowserManager.createContext ⟨some 5, none, none, 6⟩).2.1.browser = some 5 :=
  ⟨(c2_initBrowser_always_launches ⟨some 5, none, none, 6⟩ 5 rfl).2.1,
   (c2_initBrowser_always_launches ⟨some 5, none, none, 6⟩ 5 rfl).2.2.2.1⟩

/-- C3: from every manager state, `closePage`, `closeContext` and
`closeBrowser` succeed; each is idempotent (the immediate second call
succeeds, changes nothing and closes nothing), and `closeBrowser` releases
in dependency order: any page-close events precede any context-close events,
which precede any browser-close events. -/
theorem c3_teardown_idempotent_ordered (s : BrowserManager.BMState) :
    ∃ s1 evs, BrowserManager.closeBrowser s = Except.ok (s1, evs)
    ∧ BrowserManager.closeBrowser s1 = Except.ok (s1, [])
    ∧ s1.page = none ∧ s1.context = none ∧ s1.browser = none
    ∧ (∃ sp ep, BrowserManager.closePage s = Except.ok (sp, ep)
        ∧ BrowserManager.closePage sp = Except.ok (sp, []))
    ∧ (∃ sc ec, BrowserManager.closeContext s = Except.ok (sc, ec)
        ∧ BrowserManager.closeContext sc = Except.ok (sc, []))
    ∧ ∃ e1 e2 e3, evs = e1 ++ e2 ++ e3
        ∧ (∀ x ∈ e1, ∃ h, x = BrowserManager.Ev.pageClosed h)
        ∧ (∀ x ∈ e2, ∃ h, x = BrowserManager.Ev.contextClosed h)
        ∧ (∀ x ∈ e3, ∃ h, x = BrowserManager.Ev.browserClosed h) := by
  obtain ⟨b, c, p, n⟩ := s
  refine ⟨⟨none, none, none, n⟩, _, closeBrowser_eq b c p n,
    closeBrowser_eq none none none n, rfl, rfl, rfl,
    ⟨⟨b, c, none, n⟩, _, closePage_eq b c p n, closePage_eq b c none n⟩,
    ⟨⟨b, none, p, n⟩, _, closeContext_eq b c p n, closeContext_eq b none p n⟩,
    BrowserManager.pageEvs ⟨b, c, p, n⟩, BrowserManager.ctxEvs ⟨b, c, p, n⟩,
    BrowserManager.brEvs ⟨b, c, p, n⟩, rfl, ?_, ?_, ?_⟩
  · intro x hx
    cases p with
    | none => simp [BrowserManager.pageEvs] at hx
    | some v =>
      simp [BrowserManager.pageEvs] at hx
      exact ⟨v, hx⟩
  · intro x hx
    cases c with
    | none => simp [BrowserManager.ctxEvs] at hx
    | some v =>
      simp [BrowserManager.ctxEvs] at hx
      exact ⟨v, hx⟩
  · intro x hx
    cases b with
    | none => simp [BrowserManager.brEvs] at hx
    | some v =>
      simp [BrowserManager.brEvs] at hx
      exact ⟨v, hx⟩

/-- C4 counterexample: the operation sequence createPage; closeContext is
reachable and leaves a non-null page handle with a null context handle,
violating the claimed dependency invariant. -/
theorem c4_dependency_counterexample :
    (BrowserManager.run [BrowserManager.Op.newPage, BrowserManager.Op.closeC]).page = some 2
    ∧ (BrowserManager.run [BrowserManager.Op.newPage, BrowserManager.Op.closeC]).context
      = none := by decide

/-- C4 amended: in every state reachable by any sequence of the six manager
operations, a non-null context implies a non-null browser; a non-null page
implies a non-null context in every state reached along traces in which
`closeContext` is never invoked while a page handle is live (`closeContext`
nulls the context without closing the page); `createContext` launches the
browser when absent and `createPage` creates a context when absent. -/
theorem c4_dependency_invariant (ops : List BrowserManager.Op) (s : BrowserManager.BMState) :
    ((BrowserManager.run ops).context ≠ none → (BrowserManager.run ops).browser ≠ none)
    ∧ (BrowserManager.okTrace BrowserManager.bmInit ops = true →
        ((BrowserManager.run ops).page ≠ none → (BrowserManager.run ops).context ≠ none))
    ∧ (BrowserManager.createContext s).2.1.browser ≠ none
    ∧ (BrowserManager.createPage s).2.1.context ≠ none := by
  have hsh : BrowserManager.shape (BrowserManager.run ops) =
      List.foldl BrowserManager.stepShape (BrowserManager.shape BrowserManager.bmInit) ops :=
    shape_fold ops BrowserManager.bmInit
  refine ⟨?_, ?_, ?_, ?_⟩
  · have h1 : BrowserManager.inv1S (BrowserManager.shape (BrowserManager.run ops)) = true := by
      rw [hsh]
      exact inv1S_fold ops (BrowserManager.shape BrowserManager.bmInit) (by decide)
    intro hc
    rcases hpb : (BrowserManager.run ops).browser with _ | w
    · exfalso
      rcases hpc : (BrowserManager.run ops).context with _ | v
      · exact hc hpc
      · have hfalse : BrowserManager.inv1S (BrowserManager.shape (BrowserManager.run ops))
            = false := by
          simp [BrowserManager.shape, BrowserManager.inv1S, hpb, hpc]
        rw [h1] at hfalse
        exact Bool.noConfusion hfalse
    · simp
  · intro hok
    have h2 : BrowserManager.invS (BrowserManager.shape (BrowserManager.run ops)) = true := by
      rw [hsh]
      refine invS_fold ops (BrowserManager.shape BrowserManager.bmInit) (by decide) ?_
      rw [← okTrace_eq ops BrowserManager.bmInit]
      exact hok
    intro hp
    rcases hpc : (BrowserManager.run ops).context with _ | v
    · exfalso
      rcases hpp : (BrowserManager.run ops).page with _ | w
      · exact hp hpp
      · have hfalse : BrowserManager.invS (BrowserManager.shape (BrowserManager.run ops))
            = false := by
          simp [BrowserManager.shape, BrowserManager.invS, hpc, hpp]
        rw [h2] at hfalse
        exact Bool.noConfusion hfalse
    · simp
  · obtain ⟨b, c, p, n⟩ := s
    cases b <;> simp [BrowserManager.createContext, BrowserManager.initBrowser]
  · obtain ⟨b, c, p, n⟩ := s
    cases b <;> cases c <;>
      simp [BrowserManager.createPage, BrowserManager.createContext, BrowserManager.initBrowser]

/-- C4 amended witness: a concrete disciplined trace keeps both halves of the
dependency invariant, evaluated at reachable states. -/
theorem c4_dependency_invariant_witness :
    (BrowserManager.run [BrowserManager.Op.newCtx]).browser ≠ none
    ∧ (BrowserManager.run [BrowserManager.Op.newPage]).context ≠ none :=
  ⟨(c4_dependency_invariant [BrowserManager.Op.newCtx] BrowserManager.bmInit).1 (by decide),
   (c4_dependency_invariant [BrowserManager.Op.newPage] BrowserManager.bmInit).2.1
     (by decide) (by decide)⟩

/-- C1 counterexample: on an element that never becomes visible, the text
query `getText` propagates the timeout error instead of returning the safe
default empty string — text queries are not defensive. -/
theorem c1_getText_throws_counterexample :
    (BasePage.getText 10000 BasePage.failingLoc).1 = Except.error BasePage.PWError.timeout
    ∧ (BasePage.getText 10000 BasePage.failingLoc).1 ≠ Except.ok "" := by
  constructor
  · rfl
  · intro hcontra
    have h0 : (BasePage.getText 10000 BasePage.failingLoc).1
        = Except.error BasePage.PWError.timeout := rfl
    rw [h0] at hcontra
    exact Except.noConfusion hcontra

/-- C1 amended: the boolean queries `isVisible` and `isEnabled` return the
safe default `false` and the results-count query returns `0`, never
throwing, when the underlying check fails; the text query `getText`,
however, waits for the element and re-raises the underlying failure after
logging it, rather than returning the empty string. -/
theorem c1_query_defaults (loc : BasePage.Locator) (aT : Int) (e : BasePage.PWError) :
    (∃ b, BasePage.isVisible loc = Except.ok b)
    ∧ (loc.isVisibleQ = Except.error e → BasePage.isVisible loc = Except.ok false)
    ∧ (∃ b, BasePage.isEnabled loc = Except.ok b)
    ∧ (loc.isEnabledQ = Except.error e → BasePage.isEnabled loc = Except.ok false)
    ∧ (∃ m, (BasePage.getResultsCount loc).1 = Except.ok m)
    ∧ (loc.countQ = Except.error e →
        BasePage.getResultsCount loc = (Except.ok 0, [BasePage.LogLevel.warn]))
    ∧ (loc.waitVisible aT = Except.error e →
        BasePage.getText aT loc = (Except.error e, [BasePage.LogLevel.err])) := by
  refine ⟨?_, ?_, ?_, ?_, ?_, ?_, ?_⟩
  · cases h : loc.isVisibleQ with
    | ok b => exact ⟨b, by simp [BasePage.isVisible, h]⟩
    | error e2 => exact ⟨false, by simp [BasePage.isVisible, h]⟩
  · intro h
    simp [BasePage.isVisible, h]
  · cases h : loc.isEnabledQ with
    | ok b => exact ⟨b, by simp [BasePage.isEnabled, h]⟩
    | error e2 => exact ⟨false, by simp [BasePage.isEnabled, h]⟩
  · intro h
    simp [BasePage.isEnabled, h]
  · cases h : loc.countQ with
    | ok m => exact ⟨m, by simp [BasePage.getResultsCount, h]⟩
    | error e2 => exact ⟨0, by simp [BasePage.getResultsCount, h]⟩
  · intro h
    simp [BasePage.getResultsCount, h]
  · intro h
    simp [BasePage.getText, BasePage.waitForElement, jsOrInt, h]

/-- C1 amended witness: on the element that never appears, the boolean and
count queries return their defaults while `getText` re-raises the timeout. -/
theorem c1_query_defaults_witness :
    BasePage.isVisible BasePage.failingLoc = Except.ok false
    ∧ BasePage.isEnabled BasePage.failingLoc = Except.ok false
    ∧ BasePage.getResultsCount BasePage.failingLoc = (Except.ok 0, [BasePage.LogLevel.warn])
    ∧ BasePage.getText 10000 BasePage.failingLoc
      = (Except.error BasePage.PWError.timeout, [BasePage.LogLevel.err]) :=
  ⟨(c1_query_defaults BasePage.failingLoc 10000 BasePage.PWError.timeout).2.1 rfl,
   (c1_query_defaults BasePage.failingLoc 10000 BasePage.PWError.timeout).2.2.2.1 rfl,
   (c1_query_defaults BasePage.failingLoc 10000 BasePage.PWError.timeout).2.2.2.2.2.1 rfl,
   (c1_query_defaults BasePage.failingLoc 10000 BasePage.PWError.timeout).2.2.2.2.2.2 rfl⟩

/-- C6: every mutating action first waits for visibility within the bounded
timeout (`timeout || actionTimeout`), then acts; it reports success exactly
when both the wait and the act succeed, and on any failure it logs an error
and re-raises the very same exception — never a silent success. -/
theorem c6_actions_wait_then_act (aT : Int) (loc : BasePage.Locator) (ot : Option Int)
    (txt : String) (cl : Option Bool) (v : String) (e : BasePage.PWError) :
    ((BasePage.click aT loc ot).1 = Except.ok () ↔
      loc.waitVisible (jsOrInt ot aT) = Except.ok () ∧ loc.clickAct = Except.ok ())
    ∧ (loc.waitVisible (jsOrInt ot aT) = Except.error e →
        BasePage.click aT loc ot = (Except.error e, [BasePage.LogLevel.err]))
    ∧ (loc.waitVisible (jsOrInt ot aT) = Except.ok () → loc.clickAct = Except.error e →
        BasePage.click aT loc ot = (Except.error e, [BasePage.LogLevel.err]))
    ∧ ((BasePage.fill aT loc txt cl ot).1 = Except.ok () ↔
        loc.waitVisible (jsOrInt ot aT) = Except.ok ()
        ∧ (if cl = some true then loc.clearAct else Except.ok ()) = Except.ok ()
        ∧ loc.fillAct txt = Except.ok ())
    ∧ (loc.waitVisible (jsOrInt ot aT) = Except.error e →
        BasePage.fill aT loc txt cl ot = (Except.error e, [BasePage.LogLevel.err]))
    ∧ ((BasePage.selectOption aT loc v).1 = Except.ok () ↔
        loc.waitVisible aT = Except.ok () ∧ loc.selectAct v = Except.ok ())
    ∧ (loc.waitVisible aT = Except.error e →
        BasePage.selectOption aT loc v = (Except.error e, [BasePage.LogLevel.err])) := by
  refine ⟨?_, ?_, ?_, ?_, ?_, ?_, ?_⟩
  · cases hw : loc.waitVisible (jsOrInt ot aT) with
    | error e1 => simp [BasePage.click, BasePage.waitForElement, hw]
    | ok u =>
      cases u
      cases hc : loc.clickAct with
      | error e1 => simp [BasePage.click, BasePage.waitForElement, hw, hc]
      | ok u2 =>
        cases u2
        simp [BasePage.click, BasePage.waitForElement, hw, hc]
  · intro hw
    simp [BasePage.click, BasePage.waitForElement, hw]
  · intro hw hc
    simp [BasePage.click, BasePage.waitForElement, hw, hc]
  · cases hw : loc.waitVisible (jsOrInt ot aT) with
    | error e1 => simp [BasePage.fill, BasePage.waitForElement, hw]
    | ok u =>
      cases u
      cases hcl : (if cl = some true then loc.clearAct else Except.ok ()) with
      | error e1 => simp [BasePage.fill, BasePage.waitForElement, hw, hcl]
      | ok u2 =>
        cases u2
        cases hf : loc.fillAct txt with
        | error e1 => simp [BasePage.fill, BasePage.waitForElement, hw, hcl, hf]
        | ok u3 =>
          cases u3
          simp [BasePage.fill, BasePage.waitForElement, hw, hcl, hf]
  · intro hw
    simp [BasePage.fill, BasePage.waitForElement, hw]
  · cases hw : loc.waitVisible aT with
    | error e1 =>
      simp [BasePage.selectOption, BasePage.waitForElement, jsOrInt, hw]
    | ok u =>
      cases u
      cases hs : loc.selectAct v with
      | error e1 =>
        simp [BasePage.selectOption, BasePage.waitForElement, jsOrInt, hw, hs]
      | ok u2 =>
        cases u2
        simp [BasePage.selectOption, BasePage.waitForElement, jsOrInt, hw, hs]
  · intro hw
    simp [BasePage.selectOption, BasePage.waitForElement, jsOrInt, hw]

/-- C6 witness: on the healthy element the click succeeds; on the element
that never appears, click, fill and selectOption each re-raise the timeout
after logging an error. -/
theorem c6_actions_wait_then_act_witness :
    (BasePage.click 10000 BasePage.okLoc none).1 = Except.ok ()
    ∧ BasePage.click 10000 BasePage.failingLoc none
      = (Except.error BasePage.PWError.timeout, [BasePage.LogLevel.err])
    ∧ BasePage.fill 10000 BasePage.failingLoc "Admin" none none
      = (Except.error BasePage.PWError.timeout, [BasePage.LogLevel.err])
    ∧ BasePage.selectOption 10000 BasePage.failingLoc "Enabled"
      = (Except.error BasePage.PWError.timeout, [BasePage.LogLevel.err]) :=
  ⟨(c6_actions_wait_then_act 10000 BasePage.okLoc none "Admin" none "Enabled"
      BasePage.PWError.timeout).1.mpr ⟨rfl, rfl⟩,
   (c6_actions_wait_then_act 10000 BasePage.failingLoc none "Admin" none "Enabled"
      BasePage.PWError.timeout).2.1 rfl,
   (c6_actions_wait_then_act 10000 BasePage.failingLoc none "Admin" none "Enabled"
      BasePage.PWError.timeout).2.2.2.2.1 rfl,
   (c6_actions_wait_then_act 10000 BasePage.failingLoc none "Admin" none "Enabled"
      BasePage.PWError.timeout).2.2.2.2.2.2 rfl⟩

/-- C7: screenshot capture never throws (it is total): with no page bound it
warns and yields no bytes; with a page it yields the bytes and writes the
file named from the label and the sanitised ISO timestamp under the
configured directory, or, when the underlying capture fails, logs the error
and yields no bytes; `attachScreenshot` attaches nothing and only warns when
the page is absent. -/
theorem c7_screenshot_never_throws (pg : Option Nat) (path iso name : String)
    (shot : Except BasePage.PWError CustomWorld.Bytes) (b : CustomWorld.Bytes)
    (e : BasePage.PWError) :
    (pg = none → CustomWorld.takeScreenshot pg path iso name shot
        = ⟨none, none, [BasePage.LogLevel.warn]⟩)
    ∧ (pg ≠ none → shot = Except.ok b →
        CustomWorld.takeScreenshot pg path iso name shot
          = ⟨some b,
             some (path ++ "/" ++ name ++ "-" ++ CustomWorld.sanitizeTs iso ++ ".png"),
             [BasePage.LogLevel.info]⟩)
    ∧ (pg ≠ none → shot = Except.error e →
        CustomWorld.takeScreenshot pg path iso name shot
          = ⟨none, none, [BasePage.LogLevel.err]⟩)
    ∧ (pg = none → (CustomWorld.attachScreenshot pg path iso name shot).1 = none
        ∧ (CustomWorld.attachScreenshot pg path iso name shot).2
          = [BasePage.LogLevel.warn]) := by
  refine ⟨?_, ?_, ?_, ?_⟩
  · intro h
    subst h
    rfl
  · intro hp hs
    subst hs
    rcases pg with _ | pid
    · exact absurd rfl hp
    · rfl
  · intro hp hs
    subst hs
    rcases pg with _ | pid
    · exact absurd rfl hp
    · rfl
  · intro h
    subst h
    exact ⟨rfl, rfl⟩

/-- C7 witness: concrete captures with and without a bound page, including
the concrete sanitised file name. -/
theorem c7_screenshot_never_throws_witness :
    CustomWorld.takeScreenshot none "./screenshots" "2026-01-07T10:00:00.000Z" "x"
        (Except.ok [137, 80, 78, 71])
      = ⟨none, none, [BasePage.LogLevel.warn]⟩
    ∧ CustomWorld.takeScreenshot (some 1) "./screenshots" "2026-01-07T10:00:00.000Z" "x"
        (Except.ok [137, 80, 78, 71])
      = ⟨some [137, 80, 78, 71], some "./screenshots/x-2026-01-07T10-00-00-000Z.png",
         [BasePage.LogLevel.info]⟩
    ∧ CustomWorld.takeScreenshot (some 1) "./screenshots" "2026-01-07T10:00:00.000Z" "x"
        (Except.error BasePage.PWError.crashed)
      = ⟨none, none, [BasePage.LogLevel.err]⟩
    ∧ (CustomWorld.attachScreenshot none "./screenshots" "2026-01-07T10:00:00.000Z" "x"
        (Except.ok [137, 80, 78, 71])).1 = none := by
  refine ⟨?_, ?_, ?_, ?_⟩
  · exact (c7_screenshot_never_throws none "./screenshots" "2026-01-07T10:00:00.000Z" "x"
      (Except.ok [137, 80, 78, 71]) [137, 80, 78, 71] BasePage.PWError.crashed).1 rfl
  · have h := (c7_screenshot_never_throws (some 1) "./screenshots"
      "2026-01-07T10:00:00.000Z" "x" (Except.ok [137, 80, 78, 71]) [137, 80, 78, 71]
      BasePage.PWError.crashed).2.1 (by simp) rfl
    rw [h]
    decide
  · exact (c7_screenshot_never_throws (some 1) "./screenshots" "2026-01-07T10:00:00.000Z"
      "x" (Except.error BasePage.PWError.crashed) [137, 80, 78, 71]
      BasePage.PWError.crashed).2.2.1 (by simp) rfl
  · exact ((c7_screenshot_never_throws none "./screenshots" "2026-01-07T10:00:00.000Z" "x"
      (Except.ok [137, 80, 78, 71]) [137, 80, 78, 71] BasePage.PWError.crashed).2.2.2
      rfl).1

/-- C8: a scenario carrying an environment-restriction tag whose target does
not equal the active environment is skipped by the Before hook before any
step executes (zero steps run); when the environment matches, the hook
signals nothing and the scenario proceeds through all its steps. -/
theorem c8_env_tag_skip (env : String) (tags : List String) (n : Nat) :
    ((("@dev-only" ∈ tags ∧ env ≠ "dev") ∨ ("@prod-only" ∈ tags ∧ env ≠ "prod")) →
      Hooks.runScenario tags env n = (0, true))
    ∧ Hooks.devOnlyHook "dev" = none
    ∧ Hooks.prodOnlyHook "prod" = none
    ∧ Hooks.runScenario ["@dev-only"] "dev" n = (n, false)
    ∧ Hooks.runScenario ["@prod-only"] "prod" n = (n, false) := by
  refine ⟨?_, rfl, rfl, rfl, rfl⟩
  intro h
  have hne : Hooks.beforeSignals tags env ≠ [] := by
    rcases h with ⟨hmem, henv⟩ | ⟨hmem, henv⟩
    · simp [Hooks.beforeSignals, Hooks.devOnlyHook, hmem, henv]
    · simp [Hooks.beforeSignals, Hooks.prodOnlyHook, hmem, henv]
  rcases hbs : Hooks.beforeSignals tags env with _ | ⟨a, rest⟩
  · exact absurd hbs hne
  · simp [Hooks.runScenario, hbs]

/-- C8 witness: a dev-only scenario under environment `qa` and a prod-only
scenario under environment `dev` both run zero steps. -/
theorem c8_env_tag_skip_witness :
    Hooks.runScenario ["@dev-only"] "qa" 3 = (0, true)
    ∧ Hooks.runScenario ["@prod-only"] "dev" 4 = (0, true) :=
  ⟨(c8_env_tag_skip "qa" ["@dev-only"] 3).1 (Or.inl ⟨by decide, by decide⟩),
   (c8_env_tag_skip "dev" ["@prod-only"] 4).1 (Or.inr ⟨by decide, by decide⟩)⟩
